import Mathlib

/-!
Shallow embedding of the PoisePollBot source (src/main.rs).

The program is a Discord poll bot: a slash command `poll` creates a `Poll`
record and persists it keyed by the display message's id; a component-event
handler loads the record for the interaction's message id, checks the
`custom_id` prefix, checks whether the acting user already voted, and then
dispatches on the `custom_id` string ("poll_yes" / "poll_no" / "poll_view"),
appending the user's id to one vote list and saving, or replying with the
current tally.

Modelling choices, each traced to the source:
* `PollVote` (src line 53) is a newtype over the u64 user id used only for
  equality, so it is embedded as `Nat`.
* `Poll` (lines 41--49) keeps its six fields with the source field names.
* The persistence instance is a partial map `Store := String → Option Poll`;
  `persist.load(key)?` (line 154) is a lookup that propagates failure
  (`Option` result on the handler), and `persist.save(key, poll)` (lines
  83, 199) updates the map at that key.
* The handler's externally visible behaviour is a trace of `Effect`s in
  program order: the load of the record, each ephemeral response
  (`eph_text`, lines 98--110), and each save.  `event_handler` returns
  `none` exactly when the load fails (the `?` on line 154).
* Only `InteractionCreate` events of kind `MessageComponent` reach the body
  (lines 145--150); `Interaction` models exactly those, carrying the
  component `custom_id`, the acting user's id and the message id.
-/

namespace PoisePollBot

/-- Source line 53: `struct PollVote(u64)` — a wrapper around the u64 user
id; equality is the only operation used, so we embed it as `Nat`. -/
abbrev PollVote := Nat

/-- Source lines 41--49: the persisted `Poll` record. -/
structure Poll where
  title : String
  description : String
  reason_to_vote_yes : String
  reason_to_vote_no : String
  yes_votes : List PollVote
  no_votes : List PollVote
deriving DecidableEq, Repr

/-- The key-value persistence instance (`shuttle_persist::PersistInstance`),
as a partial map from keys to records. -/
abbrev Store := String → Option Poll

/-- Source lines 113--124: `get_voted` — true iff the interacting user's id
occurs in either vote list.  The source takes the interaction and reads
`component_interaction.user.id.0`; we pass that id directly. -/
def get_voted (user_id : PollVote) (yes_votes no_votes : List PollVote) : Bool :=
  yes_votes.any (fun v => user_id == v) || no_votes.any (fun v => user_id == v)

/-- Source line 156 uses Rust `str::starts_with("poll_")`, which holds iff
the pattern's character sequence is a prefix of the string's character
sequence (byte-prefix and character-prefix coincide on valid UTF-8).
Embedded over the character data, where it is directly computable. -/
def starts_with (s pre : String) : Bool :=
  pre.data.isPrefixOf s.data

/-- A `MessageComponent` interaction as seen by the handler body:
`component_data.custom_id`, `component_interaction.user.id.0`, and
`component_interaction.message.id.to_string()`. -/
structure Interaction where
  custom_id : String
  user_id : PollVote
  message_id : String
deriving DecidableEq

/-- One externally visible step of the handler, in program order:
the `persist.load` call, an ephemeral text response (`eph_text`), or a
`persist.save` of a record under a key. -/
inductive Effect where
  | load : String → Effect
  | respond : String → Effect
  | save : String → Poll → Effect
deriving DecidableEq

/-- Source lines 186--191: the `poll_view` reply text
`format!("Yes: {} No: {}", poll.yes_votes.len(), poll.no_votes.len())`. -/
def view_text (p : Poll) : String :=
  "Yes: " ++ toString p.yes_votes.length ++ " No: " ++ toString p.no_votes.length

/-- Source lines 144--202: the body of the component-interaction handler,
as the ordered trace of effects it performs.  `none` means the
`persist.load(poll_id)?` on line 154 failed and the error propagated.

Control flow mirrors the source exactly:
line 154 load; line 156 prefix check (early return "Unknown id");
line 160 `get_voted` check (early return "You already voted!");
lines 169--197 `match` on the `custom_id` string (the Rust `match` on
`&str` is an equality chain, embedded as one); line 199 the trailing
`persist.save` reached by the "poll_yes", "poll_no" and `_ => {}` arms —
here the save is written at the end of each arm that reaches it, which is
the same trace. -/
def event_handler (store : Store) (i : Interaction) : Option (List Effect) :=
  match store i.message_id with
  | none => none
  | some poll =>
    some (Effect.load i.message_id ::
      (if !(starts_with i.custom_id "poll_") then
        [Effect.respond "Unknown id"]
      else if get_voted i.user_id poll.yes_votes poll.no_votes then
        [Effect.respond "You already voted!"]
      else if i.custom_id = "poll_yes" then
        [Effect.respond "You voted yes!",
         Effect.save i.message_id
           { poll with yes_votes := poll.yes_votes ++ [i.user_id] }]
      else if i.custom_id = "poll_no" then
        [Effect.respond "You voted no!",
         Effect.save i.message_id
           { poll with no_votes := poll.no_votes ++ [i.user_id] }]
      else if i.custom_id = "poll_view" then
        [Effect.respond (view_text poll)]
      else
        [Effect.save i.message_id poll]))

/-- Applying one effect to the store: only `save` changes it
(`persist.save(key, poll)`); loads and responses leave it alone. -/
def apply_effect (store : Store) : Effect → Store
  | Effect.save key p => fun k => if k = key then some p else store k
  | _ => store

/-- Applying a trace of effects to the store, left to right. -/
def apply_effects (store : Store) (es : List Effect) : Store :=
  es.foldl apply_effect store

/-- The store after one handler invocation: a failed load (`?` on line 154)
aborts the invocation and leaves the store unchanged; otherwise the trace's
saves are applied. -/
def handle_store (store : Store) (i : Interaction) : Store :=
  match event_handler store i with
  | none => store
  | some es => apply_effects store es

/-- The store after a sequence of handler invocations, processed one at a
time in order. -/
def run (store : Store) : List Interaction → Store
  | [] => store
  | i :: is => run (handle_store store i) is

/-- Source lines 85--92: the `Poll` literal built by the `poll` slash
command — the four text fields verbatim, both vote lists empty. -/
def create_poll (title description reason_to_vote_yes reason_to_vote_no : String) :
    Poll :=
  { title := title, description := description,
    reason_to_vote_yes := reason_to_vote_yes,
    reason_to_vote_no := reason_to_vote_no,
    yes_votes := [], no_votes := [] }

/-- Source lines 82--93 of the `poll` command: persist the freshly built
record under `message.id.to_string()` — the display message's identifier. -/
def poll_command (store : Store) (message_id : String)
    (title description reason_to_vote_yes reason_to_vote_no : String) : Store :=
  fun k =>
    if k = message_id then
      some (create_poll title description reason_to_vote_yes reason_to_vote_no)
    else store k

/-- The pure per-poll transition underlying one handler invocation on the
record stored at the interaction's key (derived; `handle_store_at_key`
connects it to `event_handler`). -/
def handle1 (p : Poll) (custom_id : String) (uid : PollVote) : Poll :=
  if !(starts_with custom_id "poll_") then p
  else if get_voted uid p.yes_votes p.no_votes then p
  else if custom_id = "poll_yes" then { p with yes_votes := p.yes_votes ++ [uid] }
  else if custom_id = "poll_no" then { p with no_votes := p.no_votes ++ [uid] }
  else p

/-- How many times a voter id occurs across both vote lists. -/
def vote_count (uid : PollVote) (p : Poll) : Nat :=
  p.yes_votes.count uid + p.no_votes.count uid

/-- Folding `handle1` over a list of interactions: the poll-level view of
`run` when every interaction targets the poll's key. -/
def run_poll (p : Poll) (is : List Interaction) : Poll :=
  is.foldl (fun q i => handle1 q i.custom_id i.user_id) p

/-- `ack_before_save es ack key`: every `save` under `key` in the trace is
strictly preceded (in program order) by a `respond ack`. -/
def ack_before_save (es : List Effect) (ack : String) (key : String) : Prop :=
  ∀ n q, es.get? n = some (Effect.save key q) →
    ∃ m, m < n ∧ es.get? m = some (Effect.respond ack)

/-- Concrete fixture: a fresh poll (Scenario 1 of the spec). -/
def fresh_poll : Poll := create_poll "T" "D" "Y" "N"

/-- Concrete fixture: a store holding `fresh_poll` under key "1". -/
def store0 : Store := fun k => if k = "1" then some fresh_poll else none

/-- Concrete fixture: the fresh poll after voter 42 voted yes. -/
def voted_poll : Poll := { fresh_poll with yes_votes := [42] }

/-- Concrete fixture: a store holding `voted_poll` under key "1". -/
def store1 : Store := fun k => if k = "1" then some voted_poll else none

/-! ### Helper lemmas shared by the claim theorems -/

theorem get_voted_iff (uid : PollVote) (ys ns : List PollVote) :
    get_voted uid ys ns = true ↔ uid ∈ ys ∨ uid ∈ ns := by
  simp [get_voted]

theorem get_voted_false_iff (uid : PollVote) (ys ns : List PollVote) :
    get_voted uid ys ns = false ↔ uid ∉ ys ∧ uid ∉ ns := by
  rw [Bool.eq_false_iff, Ne, get_voted_iff, not_or]

theorem event_handler_load_failed (store : Store) (i : Interaction)
    (h : store i.message_id = none) : event_handler store i = none := by
  simp [event_handler, h]

theorem event_handler_no_prefix (store : Store) (i : Interaction) (p : Poll)
    (h : store i.message_id = some p)
    (hpre : starts_with i.custom_id "poll_" = false) :
    event_handler store i =
      some [Effect.load i.message_id, Effect.respond "Unknown id"] := by
  simp [event_handler, h, hpre]

theorem event_handler_already (store : Store) (i : Interaction) (p : Poll)
    (h : store i.message_id = some p)
    (hpre : starts_with i.custom_id "poll_" = true)
    (hv : get_voted i.user_id p.yes_votes p.no_votes = true) :
    event_handler store i =
      some [Effect.load i.message_id, Effect.respond "You already voted!"] := by
  simp [event_handler, h, hpre, hv]

theorem event_handler_yes (store : Store) (i : Interaction) (p : Poll)
    (h : store i.message_id = some p)
    (hy : i.custom_id = "poll_yes")
    (hv : get_voted i.user_id p.yes_votes p.no_votes = false) :
    event_handler store i =
      some [Effect.load i.message_id, Effect.respond "You voted yes!",
            Effect.save i.message_id
              { p with yes_votes := p.yes_votes ++ [i.user_id] }] := by
  have hpre : starts_with "poll_yes" "poll_" = true := by decide
  simp [event_handler, h, hy, hpre, hv]

theorem event_handler_no (store : Store) (i : Interaction) (p : Poll)
    (h : store i.message_id = some p)
    (hn : i.custom_id = "poll_no")
    (hv : get_voted i.user_id p.yes_votes p.no_votes = false) :
    event_handler store i =
      some [Effect.load i.message_id, Effect.respond "You voted no!",
            Effect.save i.message_id
              { p with no_votes := p.no_votes ++ [i.user_id] }] := by
  have hpre : starts_with "poll_no" "poll_" = true := by decide
  simp [event_handler, h, hn, hpre, hv]

theorem event_handler_view (store : Store) (i : Interaction) (p : Poll)
    (h : store i.message_id = some p)
    (hw : i.custom_id = "poll_view")
    (hv : get_voted i.user_id p.yes_votes p.no_votes = false) :
    event_handler store i =
      some [Effect.load i.message_id, Effect.respond (view_text p)] := by
  have hpre : starts_with "poll_view" "poll_" = true := by decide
  simp [event_handler, h, hw, hpre, hv]

theorem event_handler_unknown_suffix (store : Store) (i : Interaction) (p : Poll)
    (h : store i.message_id = some p)
    (hpre : starts_with i.custom_id "poll_" = true)
    (hv : get_voted i.user_id p.yes_votes p.no_votes = false)
    (h1 : i.custom_id ≠ "poll_yes") (h2 : i.custom_id ≠ "poll_no")
    (h3 : i.custom_id ≠ "poll_view") :
    event_handler store i =
      some [Effect.load i.message_id, Effect.save i.message_id p] := by
  simp [event_handler, h, hpre, hv, h1, h2, h3]

theorem handle_store_at_key (store : Store) (i : Interaction) (p : Poll)
    (h : store i.message_id = some p) :
    handle_store store i i.message_id =
      some (handle1 p i.custom_id i.user_id) := by
  cases hpre : starts_with i.custom_id "poll_" with
  | false =>
    rw [handle_store, event_handler_no_prefix store i p h hpre]
    simp [apply_effects, apply_effect, handle1, hpre, h]
  | true =>
    cases hv : get_voted i.user_id p.yes_votes p.no_votes with
    | true =>
      rw [handle_store, event_handler_already store i p h hpre hv]
      simp [apply_effects, apply_effect, handle1, hpre, hv, h]
    | false =>
      by_cases hy : i.custom_id = "poll_yes"
      · have hp2 : starts_with "poll_yes" "poll_" = true := by decide
        rw [handle_store, event_handler_yes store i p h hy hv]
        simp [apply_effects, apply_effect, handle1, hpre, hv, hy, hp2]
      by_cases hn : i.custom_id = "poll_no"
      · have hp2 : starts_with "poll_no" "poll_" = true := by decide
        rw [handle_store, event_handler_no store i p h hn hv]
        simp [apply_effects, apply_effect, handle1, hpre, hv, hy, hn, hp2]
      by_cases hw : i.custom_id = "poll_view"
      · rw [handle_store, event_handler_view store i p h hw hv]
        simp [apply_effects, apply_effect, handle1, hpre, hv, hy, hn, hw, h]
      rw [handle_store, event_handler_unknown_suffix store i p h hpre hv hy hn hw]
      simp [apply_effects, apply_effect, handle1, hpre, hv, hy, hn, hw]

theorem run_at_key (key : String) (is : List Interaction) :
    ∀ (store : Store) (p : Poll), store key = some p →
      (∀ i ∈ is, i.message_id = key) →
      run store is key = some (run_poll p is) := by
  induction is with
  | nil =>
    intro store p h _
    simpa [run, run_poll] using h
  | cons i is ih =>
    intro store p h hall
    have hk : i.message_id = key := hall i (by simp)
    have h2 : store i.message_id = some p := by rw [hk]; exact h
    have hstep : handle_store store i key =
        some (handle1 p i.custom_id i.user_id) := by
      rw [← hk]; exact handle_store_at_key store i p h2
    have hrest : ∀ j ∈ is, j.message_id = key := fun j hj => hall j (by simp [hj])
    rw [run]
    rw [ih (handle_store store i) (handle1 p i.custom_id i.user_id) hstep hrest]
    rfl

theorem vote_count_handle1 (p : Poll) (c : String) (u uid : PollVote)
    (h : vote_count uid p ≤ 1) : vote_count uid (handle1 p c u) ≤ 1 := by
  unfold handle1
  cases hpre : starts_with c "poll_" with
  | false => simpa [hpre] using h
  | true =>
    cases hv : get_voted u p.yes_votes p.no_votes with
    | true => simpa [hpre, hv] using h
    | false =>
      have hu := (get_voted_false_iff u p.yes_votes p.no_votes).mp hv
      by_cases hy : c = "poll_yes"
      · by_cases huid : u = uid
        · subst huid
          have h1 : p.yes_votes.count u = 0 := List.count_eq_zero.mpr hu.1
          have h2 : p.no_votes.count u = 0 := List.count_eq_zero.mpr hu.2
          simp [hpre, hv, hy, vote_count, List.count_append, h1, h2]
        · have h1 : List.count uid [u] = 0 := by
            rw [List.count_eq_zero, List.mem_singleton]
            exact fun hc => huid hc.symm
          simp only [hpre, hv, hy, Bool.not_true, Bool.false_eq_true,
            if_false, if_true, vote_count, List.count_append] at h ⊢
          simpa [h1] using h
      by_cases hn : c = "poll_no"
      · by_cases huid : u = uid
        · subst huid
          have h1 : p.yes_votes.count u = 0 := List.count_eq_zero.mpr hu.1
          have h2 : p.no_votes.count u = 0 := List.count_eq_zero.mpr hu.2
          simp [hpre, hv, hy, hn, vote_count, List.count_append, h1, h2]
        · have h1 : List.count uid [u] = 0 := by
            rw [List.count_eq_zero, List.mem_singleton]
            exact fun hc => huid hc.symm
          simp only [hpre, hv, hy, hn, Bool.not_true, Bool.false_eq_true,
            if_false, if_true, vote_count, List.count_append] at h ⊢
          simpa [h1] using h
      simpa [hpre, hv, hy, hn] using h

theorem vote_count_run_poll (uid : PollVote) (is : List Interaction) :
    ∀ p : Poll, vote_count uid p ≤ 1 → vote_count uid (run_poll p is) ≤ 1 := by
  induction is with
  | nil => intro p h; simpa [run_poll] using h
  | cons i is ih =>
    intro p h
    have := vote_count_handle1 p i.custom_id i.user_id uid h
    simpa [run_poll] using ih _ this

theorem view_text_ne_already (p : Poll) : view_text p ≠ "You already voted!" := by
  intro h
  have h2 : (view_text p).data = "You already voted!".data := by rw [h]
  simp [view_text, String.data_append] at h2

/-! ### Claim theorems -/

/-- C1: For every Poll P and Voter V, after any sequence of sequentially
processed vote actions by V against P (starting from a freshly created
Poll), V's identifier appears in at most one of yes_votes/no_votes, and at
most once within that sequence: the total occurrence count of V across
both vote lists of the stored record is at most 1. -/
theorem claim_C1_single_vote_invariant (store : Store) (key : String)
    (title description ry rn : String) (V : PollVote) (is : List Interaction)
    (hstore : store key = some (create_poll title description ry rn))
    (his : ∀ i ∈ is, i.message_id = key ∧ i.user_id = V) :
    ∃ p, run store is key = some p ∧ vote_count V p ≤ 1 := by
  have hall : ∀ i ∈ is, i.message_id = key := fun i hi => (his i hi).1
  refine ⟨run_poll (create_poll title description ry rn) is,
    run_at_key key is store _ hstore hall, ?_⟩
  apply vote_count_run_poll
  simp [vote_count, create_poll]

/-- Concrete instantiation of C1: voter 42 sends poll_yes and then poll_no
against a fresh poll stored under key "1". -/
theorem claim_C1_witness :
    ∃ p, run store0
        [⟨"poll_yes", 42, "1"⟩, ⟨"poll_no", 42, "1"⟩] "1" = some p ∧
      vote_count 42 p ≤ 1 :=
  claim_C1_single_vote_invariant store0 "1" "T" "D" "Y" "N" 42
    [⟨"poll_yes", 42, "1"⟩, ⟨"poll_no", 42, "1"⟩]
    (by decide) (by decide)

/-- C8: For every four input strings (title, description, reason_yes,
reason_no), including empty strings, poll creation builds and persists —
keyed by the display message's identifier — a Poll record carrying exactly
those four field values with yes_votes and no_votes both empty. -/
theorem claim_C8_create_poll (store : Store) (message_id : String)
    (title description ry rn : String) :
    poll_command store message_id title description ry rn message_id =
      some { title := title, description := description,
             reason_to_vote_yes := ry, reason_to_vote_no := rn,
             yes_votes := [], no_votes := [] } := by
  simp [poll_command, create_poll]

/-- C4: For every VoteYes (resp. VoteNo) action from a voter V not present
in either vote list of the stored Poll, the handler responds
"You voted yes!" (resp. "You voted no!"), appends exactly V's identifier
to the end of yes_votes (resp. no_votes) leaving the other four fields and
the other vote list unchanged (the saved record is the structure update
shown), and persists the mutated record back under the same key. -/
theorem claim_C4_vote_success (store : Store) (key : String)
    (uid : PollVote) (p : Poll)
    (h : store key = some p)
    (hv : get_voted uid p.yes_votes p.no_votes = false) :
    (event_handler store ⟨"poll_yes", uid, key⟩ =
        some [Effect.load key, Effect.respond "You voted yes!",
              Effect.save key { p with yes_votes := p.yes_votes ++ [uid] }] ∧
      handle_store store ⟨"poll_yes", uid, key⟩ key =
        some { p with yes_votes := p.yes_votes ++ [uid] }) ∧
    (event_handler store ⟨"poll_no", uid, key⟩ =
        some [Effect.load key, Effect.respond "You voted no!",
              Effect.save key { p with no_votes := p.no_votes ++ [uid] }] ∧
      handle_store store ⟨"poll_no", uid, key⟩ key =
        some { p with no_votes := p.no_votes ++ [uid] }) := by
  have hty := event_handler_yes store ⟨"poll_yes", uid, key⟩ p h rfl hv
  have htn := event_handler_no store ⟨"poll_no", uid, key⟩ p h rfl hv
  refine ⟨⟨hty, ?_⟩, ⟨htn, ?_⟩⟩
  · rw [handle_store, hty]
    simp [apply_effects, apply_effect]
  · rw [handle_store, htn]
    simp [apply_effects, apply_effect]

/-- Concrete instantiation of C4: voter 42 votes on the fresh poll stored
under key "1" (Scenario 2 of the spec). -/
theorem claim_C4_witness :
    (event_handler store0 ⟨"poll_yes", 42, "1"⟩ =
        some [Effect.load "1", Effect.respond "You voted yes!",
              Effect.save "1"
                { fresh_poll with yes_votes := fresh_poll.yes_votes ++ [42] }] ∧
      handle_store store0 ⟨"poll_yes", 42, "1"⟩ "1" =
        some { fresh_poll with yes_votes := fresh_poll.yes_votes ++ [42] }) ∧
    (event_handler store0 ⟨"poll_no", 42, "1"⟩ =
        some [Effect.load "1", Effect.respond "You voted no!",
              Effect.save "1"
                { fresh_poll with no_votes := fresh_poll.no_votes ++ [42] }] ∧
      handle_store store0 ⟨"poll_no", 42, "1"⟩ "1" =
        some { fresh_poll with no_votes := fresh_poll.no_votes ++ [42] }) :=
  claim_C4_vote_success store0 "1" 42 fresh_poll (by decide) (by decide)

/-- C5: For every ViewResults action from a voter not present in either
vote list, the handler responds with exactly
"Yes: {len(yes_votes)} No: {len(no_votes)}", mutates nothing, and performs
no persistence write: the trace holds no save and the store is unchanged. -/
theorem claim_C5_view_results (store : Store) (key : String)
    (uid : PollVote) (p : Poll)
    (h : store key = some p)
    (hv : get_voted uid p.yes_votes p.no_votes = false) :
    event_handler store ⟨"poll_view", uid, key⟩ =
      some [Effect.load key,
            Effect.respond ("Yes: " ++ toString p.yes_votes.length ++
              " No: " ++ toString p.no_votes.length)] ∧
    handle_store store ⟨"poll_view", uid, key⟩ = store := by
  have ht := event_handler_view store ⟨"poll_view", uid, key⟩ p h rfl hv
  refine ⟨by simpa [view_text] using ht, ?_⟩
  rw [handle_store, ht]
  rfl

/-- Concrete instantiation of C5: voter 7 presses view on the poll where
voter 42 already voted yes (Scenario 4 of the spec). -/
theorem claim_C5_witness :
    event_handler store1 ⟨"poll_view", 7, "1"⟩ =
      some [Effect.load "1",
            Effect.respond ("Yes: " ++ toString voted_poll.yes_votes.length ++
              " No: " ++ toString voted_poll.no_votes.length)] ∧
    handle_store store1 ⟨"poll_view", 7, "1"⟩ = store1 :=
  claim_C5_view_results store1 "1" 7 voted_poll (by decide) (by decide)

/-- C6: For every vote action (poll_yes or poll_no) from a voter already
present in either vote list of the Poll, the handler responds
"You already voted!" and leaves both vote lists unchanged with no
persistence write (the store is unchanged); repeating such an action any
number of times changes nothing. -/
theorem claim_C6_already_voted (store : Store) (key : String)
    (uid : PollVote) (p : Poll) (c : String) (n : Nat)
    (h : store key = some p)
    (hc : c = "poll_yes" ∨ c = "poll_no")
    (hv : get_voted uid p.yes_votes p.no_votes = true) :
    event_handler store ⟨c, uid, key⟩ =
      some [Effect.load key, Effect.respond "You already voted!"] ∧
    handle_store store ⟨c, uid, key⟩ = store ∧
    run store (List.replicate n ⟨c, uid, key⟩) = store := by
  have hpre : starts_with c "poll_" = true := by
    rcases hc with hc | hc <;> rw [hc] <;> decide
  have ht := event_handler_already store ⟨c, uid, key⟩ p h hpre hv
  have hst : handle_store store ⟨c, uid, key⟩ = store := by
    rw [handle_store, ht]; rfl
  refine ⟨ht, hst, ?_⟩
  induction n with
  | zero => rfl
  | succ n ih =>
    rw [List.replicate_succ, run, hst]
    exact ih

/-- Concrete instantiation of C6: voter 42, who already voted yes, sends
poll_no three times (Scenario 3 of the spec). -/
theorem claim_C6_witness :
    event_handler store1 ⟨"poll_no", 42, "1"⟩ =
      some [Effect.load "1", Effect.respond "You already voted!"] ∧
    handle_store store1 ⟨"poll_no", 42, "1"⟩ = store1 ∧
    run store1 (List.replicate 3 ⟨"poll_no", 42, "1"⟩) = store1 :=
  claim_C6_already_voted store1 "1" 42 voted_poll "poll_no" 3
    (by decide) (Or.inr rfl) (by decide)

/-- C7: The already-voted check precedes the dispatch on the action kind:
a poll_view action from a voter already present in either vote list yields
"You already voted!" — not the results message, which is never equal to
that text — and still mutates nothing (the store is unchanged). -/
theorem claim_C7_gate_before_view (store : Store) (key : String)
    (uid : PollVote) (p : Poll)
    (h : store key = some p)
    (hv : get_voted uid p.yes_votes p.no_votes = true) :
    event_handler store ⟨"poll_view", uid, key⟩ =
      some [Effect.load key, Effect.respond "You already voted!"] ∧
    Effect.respond (view_text p) ∉
      [Effect.load key, Effect.respond "You already voted!"] ∧
    handle_store store ⟨"poll_view", uid, key⟩ = store := by
  have hpre : starts_with "poll_view" "poll_" = true := by decide
  have ht := event_handler_already store ⟨"poll_view", uid, key⟩ p h hpre hv
  refine ⟨ht, ?_, by rw [handle_store, ht]; rfl⟩
  simp [view_text_ne_already p]

/-- Concrete instantiation of C7: voter 42, who already voted yes,
presses the view button. -/
theorem claim_C7_witness :
    event_handler store1 ⟨"poll_view", 42, "1"⟩ =
      some [Effect.load "1", Effect.respond "You already voted!"] ∧
    Effect.respond (view_text voted_poll) ∉
      [Effect.load "1", Effect.respond "You already voted!"] ∧
    handle_store store1 ⟨"poll_view", 42, "1"⟩ = store1 :=
  claim_C7_gate_before_view store1 "1" 42 voted_poll (by decide) (by decide)

/-- C9: For every successful VoteYes/VoteNo action, the success
acknowledgment ("You voted yes!" / "You voted no!") is sent strictly
before the mutated record is persisted: the save of the mutated record is
in the trace, and every save under the key is strictly preceded in program
order by the acknowledgment response.  Hence if the save then fails, the
voter has already received the acknowledgment. -/
theorem claim_C9_ack_before_save (store : Store) (key : String)
    (uid : PollVote) (p : Poll)
    (h : store key = some p)
    (hv : get_voted uid p.yes_votes p.no_votes = false) :
    (∃ es, event_handler store ⟨"poll_yes", uid, key⟩ = some es ∧
      Effect.save key { p with yes_votes := p.yes_votes ++ [uid] } ∈ es ∧
      ack_before_save es "You voted yes!" key) ∧
    (∃ es, event_handler store ⟨"poll_no", uid, key⟩ = some es ∧
      Effect.save key { p with no_votes := p.no_votes ++ [uid] } ∈ es ∧
      ack_before_save es "You voted no!" key) := by
  have hty := event_handler_yes store ⟨"poll_yes", uid, key⟩ p h rfl hv
  have htn := event_handler_no store ⟨"poll_no", uid, key⟩ p h rfl hv
  constructor
  · refine ⟨_, hty, by simp, ?_⟩
    intro n q hn
    rcases n with _ | _ | _ | n
    · simp [List.get?] at hn
    · simp [List.get?] at hn
    · exact ⟨1, by omega, rfl⟩
    · simp [List.get?] at hn
  · refine ⟨_, htn, by simp, ?_⟩
    intro n q hn
    rcases n with _ | _ | _ | n
    · simp [List.get?] at hn
    · simp [List.get?] at hn
    · exact ⟨1, by omega, rfl⟩
    · simp [List.get?] at hn

/-- Concrete instantiation of C9: voter 42 votes on the fresh poll under
key "1". -/
theorem claim_C9_witness :
    (∃ es, event_handler store0 ⟨"poll_yes", 42, "1"⟩ = some es ∧
      Effect.save "1"
        { fresh_poll with yes_votes := fresh_poll.yes_votes ++ [42] } ∈ es ∧
      ack_before_save es "You voted yes!" "1") ∧
    (∃ es, event_handler store0 ⟨"poll_no", 42, "1"⟩ = some es ∧
      Effect.save "1"
        { fresh_poll with no_votes := fresh_poll.no_votes ++ [42] } ∈ es ∧
      ack_before_save es "You voted no!" "1") :=
  claim_C9_ack_before_save store0 "1" 42 fresh_poll (by decide) (by decide)

/-- C10: Every handler invocation is append-only with respect to the
Poll's vote lists: if the record stored at the interaction's key was p
when loaded, then after the invocation the record at that key exists and
carries p's yes_votes and no_votes as prefixes, in the same order — no
element is removed, replaced, or reordered by any action. -/
theorem claim_C10_append_only (store : Store) (i : Interaction) (p : Poll)
    (h : store i.message_id = some p) :
    ∃ q, handle_store store i i.message_id = some q ∧
      p.yes_votes <+: q.yes_votes ∧ p.no_votes <+: q.no_votes := by
  refine ⟨handle1 p i.custom_id i.user_id, handle_store_at_key store i p h, ?_⟩
  unfold handle1
  split_ifs <;>
    constructor <;>
    first
      | exact List.prefix_rfl
      | exact List.prefix_append _ _

/-- Concrete instantiation of C10: a poll_yes press by voter 42 on the
fresh poll under key "1". -/
theorem claim_C10_witness :
    ∃ q, handle_store store0 ⟨"poll_yes", 42, "1"⟩ "1" = some q ∧
      fresh_poll.yes_votes <+: q.yes_votes ∧
      fresh_poll.no_votes <+: q.no_votes :=
  claim_C10_append_only store0 ⟨"poll_yes", 42, "1"⟩ fresh_poll (by decide)

/-- C2 as stated is false on the code: the handler loads the Poll record
before the prefix check (line 154 precedes line 156) and answers
"Unknown id" to non-"poll_" ids.  Concretely, for custom_id "bogus"
(which does not start with "poll_") on the poll stored under "1", the
trace holds a load of the record and a response to the actor — the event
is not ignored. -/
theorem claim_C2_counterexample :
    starts_with "bogus" "poll_" = false ∧
    event_handler store0 ⟨"bogus", 7, "1"⟩ =
      some [Effect.load "1", Effect.respond "Unknown id"] ∧
    Effect.load "1" ∈ [Effect.load "1", Effect.respond "Unknown id"] ∧
    Effect.respond "Unknown id" ∈
      [Effect.load "1", Effect.respond "Unknown id"] := by
  refine ⟨by decide, ?_, by simp, by simp⟩
  exact event_handler_no_prefix store0 ⟨"bogus", 7, "1"⟩ fresh_poll
    (by decide) (by decide)

/-- C2 amended: an action event whose custom_id does not start with
"poll_" still causes the Poll record load (the load precedes the prefix
check) and, when the load succeeds, a response "Unknown id" to the actor;
but it never mutates or persists any Poll record — the store is entirely
unchanged. -/
theorem claim_C2_amended (store : Store) (i : Interaction) (p : Poll)
    (hpre : starts_with i.custom_id "poll_" = false)
    (h : store i.message_id = some p) :
    event_handler store i =
      some [Effect.load i.message_id, Effect.respond "Unknown id"] ∧
    handle_store store i = store := by
  have ht := event_handler_no_prefix store i p h hpre
  exact ⟨ht, by rw [handle_store, ht]; rfl⟩

/-- Concrete instantiation of the amended C2 at custom_id "bogus". -/
theorem claim_C2_witness :
    event_handler store0 ⟨"bogus", 7, "1"⟩ =
      some [Effect.load "1", Effect.respond "Unknown id"] ∧
    handle_store store0 ⟨"bogus", 7, "1"⟩ = store0 :=
  claim_C2_amended store0 ⟨"bogus", 7, "1"⟩ fresh_poll (by decide) (by decide)

/-- C3 as stated is false on the code: an id with the "poll_" prefix but
an unknown suffix falls into the match's `_ => {}` arm, which sends no
response and then reaches the trailing save on line 199.  Concretely, for
custom_id "poll_bogus" from voter 9 (who has not voted) on the poll stored
under "1", the trace holds no "Unknown id" response and does hold a
persistence save (of the unchanged record). -/
theorem claim_C3_counterexample :
    starts_with "poll_bogus" "poll_" = true ∧
    event_handler store0 ⟨"poll_bogus", 9, "1"⟩ =
      some [Effect.load "1", Effect.save "1" fresh_poll] ∧
    Effect.respond "Unknown id" ∉
      [Effect.load "1", Effect.save "1" fresh_poll] ∧
    Effect.save "1" fresh_poll ∈
      [Effect.load "1", Effect.save "1" fresh_poll] := by
  refine ⟨by decide, ?_, by simp, by simp⟩
  exact event_handler_unknown_suffix store0 ⟨"poll_bogus", 9, "1"⟩ fresh_poll
    (by decide) (by decide) (by decide) (by decide) (by decide) (by decide)

/-- C3 amended: for every action whose custom_id starts with "poll_" but
is none of poll_yes/poll_no/poll_view, from a voter not present in either
vote list, the handler sends no response at all (in particular not
"Unknown id"), leaves the Poll record value unchanged, and performs a
persistence write that re-saves the unchanged record under the same key. -/
theorem claim_C3_amended (store : Store) (i : Interaction) (p : Poll)
    (h : store i.message_id = some p)
    (hpre : starts_with i.custom_id "poll_" = true)
    (h1 : i.custom_id ≠ "poll_yes") (h2 : i.custom_id ≠ "poll_no")
    (h3 : i.custom_id ≠ "poll_view")
    (hv : get_voted i.user_id p.yes_votes p.no_votes = false) :
    event_handler store i =
      some [Effect.load i.message_id, Effect.save i.message_id p] ∧
    Effect.respond "Unknown id" ∉
      [Effect.load i.message_id, Effect.save i.message_id p] ∧
    handle_store store i i.message_id = some p := by
  have ht := event_handler_unknown_suffix store i p h hpre hv h1 h2 h3
  refine ⟨ht, by simp, ?_⟩
  rw [handle_store, ht]
  simp [apply_effects, apply_effect]

/-- Concrete instantiation of the amended C3 at custom_id "poll_bogus"
(Scenario 5 of the spec, with the code's actual behaviour). -/
theorem claim_C3_witness :
    event_handler store0 ⟨"poll_bogus", 9, "1"⟩ =
      some [Effect.load "1", Effect.save "1" fresh_poll] ∧
    Effect.respond "Unknown id" ∉
      [Effect.load "1", Effect.save "1" fresh_poll] ∧
    handle_store store0 ⟨"poll_bogus", 9, "1"⟩ "1" = some fresh_poll :=
  claim_C3_amended store0 ⟨"poll_bogus", 9, "1"⟩ fresh_poll
    (by decide) (by decide) (by decide) (by decide) (by decide) (by decide)

end PoisePollBot
